import Mathlib

/-!
Shallow embedding of the virtual try-on client's prediction lifecycle.

The repository holds three near-duplicate variants of the same app:
* variant A — the basic app (first `App` in `src/src/App.tsx`);
* variant B — the camera-modal app (second `App` in `src/src/App.tsx`);
* variant C — the inline-camera app (`src/unnamed/part_000`).

Each React state cell and each handler (`startPrediction`,
`checkPredictionStatus`, `handleTryAgain`, `showError`,
`handleCameraUpload`, `takePhoto`) is translated into a pure Lean
function over an explicit state record; a `fetch` outcome is passed in
as data.
-/

namespace VirtualTryOn

/-- A JSON value, as produced by `response.json()`. -/
inductive Json where
  | null
  | bool (b : Bool)
  | num (n : Int)
  | str (s : String)
  | arr (xs : List Json)
  | obj (fields : List (String × Json))

/-- JS property access `data.k` on a parsed value: `obj` lookup, first
matching key; anything else has no own string-keyed properties here. -/
def Json.get? : Json → String → Option Json
  | .obj fields, k => fields.lookup k
  | _, _ => none

/-- JS truthiness of a JSON value (note: an empty array is truthy). -/
def Json.truthy : Json → Bool
  | .null => false
  | .bool b => b
  | .num n => n != 0
  | .str s => !s.isEmpty
  | .arr _ => true
  | .obj _ => true

/-- Value of a `string | null` React state cell at runtime: the code can
store `null`, `undefined` (an absent response field), or any JSON value. -/
inductive JsVal where
  | null
  | undef
  | json (j : Json)

/-- JS truthiness of a state-cell value. -/
def JsVal.truthy : JsVal → Bool
  | .null => false
  | .undef => false
  | .json j => j.truthy

/-- `data.k` in JS: the field's value, or `undefined` when absent. -/
def jsField (data : Json) (k : String) : JsVal :=
  match data.get? k with
  | none => JsVal.undef
  | some v => JsVal.json v

/-- `v[0]` in JS for the values reachable here: first element of an
array (or `undefined` when empty), first character of a string,
`undefined` for the other kinds. -/
def jsIndex0 : Json → JsVal
  | .arr [] => JsVal.undef
  | .arr (x :: _) => JsVal.json x
  | .str s => if s.isEmpty then JsVal.undef else JsVal.json (Json.str (s.take 1))
  | _ => JsVal.undef

mutual
/-- JS `String(v)` coercion, as used by `new Error(v)` and template
literals. -/
def jsToString : Json → String
  | .null => "null"
  | .bool b => if b then "true" else "false"
  | .num n => toString n
  | .str s => s
  | .arr xs => String.intercalate "," (jsToStringList xs)
  | .obj _ => "[object Object]"

def jsToStringList : List Json → List String
  | [] => []
  | x :: xs => jsToString x :: jsToStringList xs
end

/-- Escaping of `"` and backslash inside a JSON string literal. -/
def jsonEscape (s : String) : String :=
  s.foldl
    (fun acc c =>
      if c = '\\' then acc ++ "\\\\"
      else if c = '"' then acc ++ "\\\"" else acc.push c) ""

mutual
/-- `JSON.stringify(v)` (no spacing), as used on object-typed `error`
fields. -/
def Json.stringify : Json → String
  | .null => "null"
  | .bool b => if b then "true" else "false"
  | .num n => toString n
  | .str s => "\"" ++ jsonEscape s ++ "\""
  | .arr xs => "[" ++ String.intercalate "," (Json.stringifyList xs) ++ "]"
  | .obj fs => "\x7b" ++ String.intercalate "," (Json.stringifyFields fs) ++ "\x7d"

def Json.stringifyList : List Json → List String
  | [] => []
  | x :: xs => Json.stringify x :: Json.stringifyList xs

def Json.stringifyFields : List (String × Json) → List String
  | [] => []
  | (k, v) :: fs => ("\"" ++ jsonEscape k ++ "\":" ++ Json.stringify v) :: Json.stringifyFields fs
end

/-- Severity of an `ErrorState` (the `'error' | 'warning' | 'info'`
union in the source). -/
inductive ErrType where
  | error
  | warning
  | info
deriving DecidableEq, Repr

/-- The `ErrorState` interface: one user-visible message with a
severity. -/
structure ErrorState where
  message : String
  type : ErrType
deriving DecidableEq, Repr

/-- Body of an HTTP response as the code observes it: `response.json()`
either resolves to a parsed value or rejects with a parse diagnostic. -/
inductive Body where
  | parseFail (msg : String)
  | parsed (data : Json)

/-- Outcome of one `fetch` call: the promise rejects (network error
with the rejection's message), or a response arrives carrying `ok`,
`status`, `statusText` and a body. -/
inductive FetchResult where
  | networkError (msg : String)
  | response (ok : Bool) (status : Nat) (statusText : String) (body : Body)

/-- JS strict equality `v === lit` of a state-cell value against a
string literal. -/
def JsVal.isStr : JsVal → String → Bool
  | .json (.str t), s => t == s
  | _, _ => false

/-- JS truthiness of `modelPreview` (`string | null`): `null` and the
empty string are falsy. -/
def optStrTruthy : Option String → Bool
  | none => false
  | some s => !s.isEmpty

/-- React state of variant A (the basic app). -/
structure StateA where
  modelUrl : String
  isLoading : Bool
  modelPreview : Option String
  generatedResult : JsVal
  predictionId : JsVal
  predictionStatus : JsVal
  garmentUrl : String

/-- React state of variants B and C (the two apps with the
`ErrorState` notification). -/
structure StateB where
  isLoading : Bool
  modelPreview : Option String
  generatedResult : JsVal
  predictionId : JsVal
  predictionStatus : JsVal
  garmentUrl : String
  error : Option ErrorState

/-- The `useState` initial values of variant A. -/
def initA : StateA :=
  { modelUrl := "", isLoading := false, modelPreview := none,
    generatedResult := JsVal.null, predictionId := JsVal.null,
    predictionStatus := JsVal.null, garmentUrl := "" }

/-- The `useState` initial values of variants B and C. -/
def initB : StateB :=
  { isLoading := false, modelPreview := none,
    generatedResult := JsVal.null, predictionId := JsVal.null,
    predictionStatus := JsVal.null, garmentUrl := "", error := none }

/-- Result of running one handler: the new state, the `showError`
calls it made (in order), and whether it issued a network request. -/
structure StepOut (σ : Type) where
  state : σ
  notices : List ErrorState
  requested : Bool

/-- `showError(message, type)`: store the notification (its 5-second
expiry is modelled separately, see `errorAt`). -/
def showError (s : StateB) (msg : String) (t : ErrType) : StateB :=
  { s with error := some { message := msg, type := t } }

/-- The guard of the polling `useEffect` (identical in all variants):
an interval is installed iff
`predictionId && predictionStatus !== 'completed' && predictionStatus !== 'failed'`. -/
def pollingTimerOn (id st : JsVal) : Bool :=
  id.truthy && !(st.isStr "completed") && !(st.isStr "failed")

/-! ## Variant A handlers (basic app, `src/src/App.tsx` lines 7-135) -/

/-- Variant A `startPrediction`: guard on the two inputs, POST, parse,
reject on a truthy `error` field, else store `data.id` and status
`starting`.  The catch block only logs and resets `isLoading`. -/
def startPredictionA (s : StateA) (fetch : FetchResult) : StepOut StateA :=
  if !(optStrTruthy s.modelPreview) || s.garmentUrl.isEmpty then
    { state := s, notices := [], requested := false }
  else
    let s1 := { s with isLoading := true }
    match fetch with
    | .networkError _ =>
      { state := { s1 with isLoading := false }, notices := [], requested := true }
    | .response _ _ _ (.parseFail _) =>
      { state := { s1 with isLoading := false }, notices := [], requested := true }
    | .response _ _ _ (.parsed data) =>
      if (jsField data "error").truthy then
        { state := { s1 with isLoading := false }, notices := [], requested := true }
      else
        { state := { s1 with predictionId := jsField data "id",
                             predictionStatus := JsVal.json (Json.str "starting") },
          notices := [], requested := true }

/-- `data.output[0]` as variant A evaluates it (only reached when
`data.output` is truthy). -/
def outputIndex0 (data : Json) : JsVal :=
  match jsField data "output" with
  | JsVal.json j => jsIndex0 j
  | _ => JsVal.undef

/-- Variant A `checkPredictionStatus`: no `ok` check, no shape check;
stores whatever `data.status` holds, takes `data.output[0]` whenever
the status is `completed` and `output` is truthy, and its catch block
only logs. -/
def checkPredictionStatusA (s : StateA) (fetch : FetchResult) : StepOut StateA :=
  if !s.predictionId.truthy then
    { state := s, notices := [], requested := false }
  else
    match fetch with
    | .networkError _ => { state := s, notices := [], requested := true }
    | .response _ _ _ (.parseFail _) => { state := s, notices := [], requested := true }
    | .response _ _ _ (.parsed data) =>
      let s1 := { s with predictionStatus := jsField data "status" }
      if (jsField data "status").isStr "completed" && (jsField data "output").truthy then
        { state := { s1 with generatedResult := outputIndex0 data,
                             isLoading := false, predictionId := JsVal.null },
          notices := [], requested := true }
      else if (jsField data "status").isStr "failed" then
        { state := { s1 with isLoading := false, predictionId := JsVal.null },
          notices := [], requested := true }
      else
        { state := s1, notices := [], requested := true }

/-- Variant A `handleTryAgain`: clears everything except `garmentUrl`. -/
def handleTryAgainA (s : StateA) : StateA :=
  { s with modelUrl := "", modelPreview := none,
           generatedResult := JsVal.null, predictionId := JsVal.null,
           predictionStatus := JsVal.null, isLoading := false }

/-! ## Variants B and C handlers -/

/-- The HTTP fallback message of `startPrediction` in variants B and C. -/
def submitHTTPMsg (status : Nat) (statusText : String) : String :=
  "API request failed with status " ++ toString status ++ ": " ++ statusText

/-- The HTTP fallback message of `checkPredictionStatus` in variants B
and C. -/
def statusHTTPMsg (status : Nat) (statusText : String) : String :=
  "Status check failed with status " ++ toString status ++ ": " ++ statusText

/-- `data?.error || fallback` turned into an `Error` message: the
`error` field's JS string coercion when truthy, else the fallback. -/
def errorFieldOr (data : Json) (fallback : String) : String :=
  match jsField data "error" with
  | JsVal.json v => if v.truthy then jsToString v else fallback
  | _ => fallback

/-- Variant B's message for a truthy `error` field:
`typeof data.error === 'object' ? JSON.stringify(data.error) : data.error`. -/
def errorFieldMsgB (data : Json) : String :=
  match jsField data "error" with
  | JsVal.json (Json.obj fs) => Json.stringify (Json.obj fs)
  | JsVal.json (Json.arr xs) => Json.stringify (Json.arr xs)
  | JsVal.json v => jsToString v
  | _ => ""

/-- Variant C's message for a truthy `error` field:
`` `API Error: ${data.error}` ``. -/
def errorFieldMsgC (data : Json) : String :=
  "API Error: " ++
    (match jsField data "error" with
     | JsVal.json v => jsToString v
     | _ => "undefined")

/-- The head of the try block of `startPrediction` in variants B and
C: `setIsLoading(true); setError(null)`. -/
def submitting (s : StateB) : StateB :=
  { s with isLoading := true, error := none }

/-- The catch block of `startPrediction` in variants B and C:
`showError(message, 'error'); setIsLoading(false)`.  `s0` is the state
as already mutated inside the try block. -/
def submitFailOut (s0 : StateB) (msg : String) : StepOut StateB :=
  { state := { (showError s0 msg ErrType.error) with isLoading := false },
    notices := [{ message := msg, type := ErrType.error }],
    requested := true }

/-- The success tail of `startPrediction` in variants B and C:
`setPredictionId(data.id); setPredictionStatus('starting')`. -/
def submitOkOut (s0 : StateB) (data : Json) : StepOut StateB :=
  { state := { s0 with predictionId := jsField data "id",
                       predictionStatus := JsVal.json (Json.str "starting") },
    notices := [], requested := true }

/-- The two input guards shared by `startPrediction` in variants B and
C, as a step result when one of them fires. -/
def submitGuard (s : StateB) : Option (StepOut StateB) :=
  if !(optStrTruthy s.modelPreview) then
    some { state := showError s "Please upload or take a photo of the model" ErrType.warning,
           notices := [{ message := "Please upload or take a photo of the model",
                         type := ErrType.warning }],
           requested := false }
  else if s.garmentUrl.isEmpty then
    some { state := showError s "Please provide a garment image URL" ErrType.warning,
           notices := [{ message := "Please provide a garment image URL",
                         type := ErrType.warning }],
           requested := false }
  else none

/-- The try block of variant B `startPrediction` (camera-modal app):
parse the body first, then require `response.ok`, a non-truthy `error`
field and a truthy `id`. -/
def submitBodyB (s : StateB) (fetch : FetchResult) : StepOut StateB :=
  let s0 := submitting s
  match fetch with
  | .networkError m => submitFailOut s0 m
  | .response ok status statusText body =>
    match body with
    | .parseFail m => submitFailOut s0 m
    | .parsed data =>
      if !ok then
        submitFailOut s0 (errorFieldOr data (submitHTTPMsg status statusText))
      else if (jsField data "error").truthy then
        submitFailOut s0 (errorFieldMsgB data)
      else if !(jsField data "id").truthy then
        submitFailOut s0 "Invalid response: missing prediction ID"
      else
        submitOkOut s0 data

/-- Variant B `startPrediction`: input guards, then the try block. -/
def startPredictionB (s : StateB) (fetch : FetchResult) : StepOut StateB :=
  match submitGuard s with
  | some out => out
  | none => submitBodyB s fetch

/-- The try block of variant C `startPrediction` (part_000): on
`!response.ok` the body is parsed with `.catch(() => null)` and the
HTTP fallback is used when it does not parse; only the `ok` path
rethrows the parse diagnostic. -/
def submitBodyC (s : StateB) (fetch : FetchResult) : StepOut StateB :=
  let s0 := submitting s
  match fetch with
  | .networkError m => submitFailOut s0 m
  | .response ok status statusText body =>
    if !ok then
      submitFailOut s0
        (match body with
         | .parsed data => errorFieldOr data (submitHTTPMsg status statusText)
         | .parseFail _ => submitHTTPMsg status statusText)
    else
      match body with
      | .parseFail m => submitFailOut s0 m
      | .parsed data =>
        if (jsField data "error").truthy then
          submitFailOut s0 (errorFieldMsgC data)
        else if !(jsField data "id").truthy then
          submitFailOut s0 "Invalid response: missing prediction ID"
        else
          submitOkOut s0 data

/-- Variant C `startPrediction`: input guards, then the try block. -/
def startPredictionC (s : StateB) (fetch : FetchResult) : StepOut StateB :=
  match submitGuard s with
  | some out => out
  | none => submitBodyC s fetch

/-- The catch block of `checkPredictionStatus` in variants B and C:
`showError(message, 'error'); setIsLoading(false); setPredictionId(null)`.
`s1` is the state as already mutated inside the try block. -/
def statusFailOut (s1 : StateB) (msg : String) : StepOut StateB :=
  { state :=
      { (showError s1 msg ErrType.error) with
        isLoading := false, predictionId := JsVal.null },
    notices := [{ message := msg, type := ErrType.error }],
    requested := true }

/-- The malformed-output test of the `completed` branch:
`!data.output || !Array.isArray(data.output) || data.output.length === 0`
(true unless `output` is a non-empty array). -/
def badOutput (data : Json) : Bool :=
  match jsField data "output" with
  | JsVal.json (Json.arr (_ :: _)) => false
  | _ => true

/-- `data.output[0]` on the branch where `badOutput` is false. -/
def outputFirst (data : Json) : JsVal :=
  match jsField data "output" with
  | JsVal.json (Json.arr (x :: _)) => JsVal.json x
  | _ => JsVal.undef

/-- The shared tail of `checkPredictionStatus` in variants B and C,
from `if (!data.status)` on: store the status; on `completed` require a
non-empty `output` array and take its first element; on `failed` throw
the fallback message (the `error` field is falsy on this path). -/
def statusTail (s : StateB) (data : Json) : StepOut StateB :=
  if !(jsField data "status").truthy then
    statusFailOut s "Invalid response: missing status"
  else
    let s1 := { s with predictionStatus := jsField data "status" }
    if (jsField data "status").isStr "completed" then
      if badOutput data then
        statusFailOut s1 "Invalid response: missing or empty output array"
      else
        { state := { s1 with generatedResult := outputFirst data, isLoading := false,
                             predictionId := JsVal.null, error := none },
          notices := [], requested := true }
    else if (jsField data "status").isStr "failed" then
      statusFailOut s1 "Prediction failed without specific error message"
    else
      { state := s1, notices := [], requested := true }

/-- The try block of variant B `checkPredictionStatus` (camera-modal
app). -/
def statusBodyB (s : StateB) (fetch : FetchResult) : StepOut StateB :=
  match fetch with
  | .networkError m => statusFailOut s m
  | .response ok status statusText body =>
    match body with
    | .parseFail m => statusFailOut s m
    | .parsed data =>
      if !ok then
        statusFailOut s (errorFieldOr data (statusHTTPMsg status statusText))
      else if (jsField data "error").truthy then
        statusFailOut s (errorFieldMsgB data)
      else
        statusTail s data

/-- Variant B `checkPredictionStatus`: the falsy-id early return, then
the try block. -/
def checkPredictionStatusB (s : StateB) (fetch : FetchResult) : StepOut StateB :=
  if !s.predictionId.truthy then
    { state := s, notices := [], requested := false }
  else
    statusBodyB s fetch

/-- The try block of variant C `checkPredictionStatus` (part_000):
`!response.ok` is checked before the body parse (with
`.catch(() => null)`). -/
def statusBodyC (s : StateB) (fetch : FetchResult) : StepOut StateB :=
  match fetch with
  | .networkError m => statusFailOut s m
  | .response ok status statusText body =>
    if !ok then
      statusFailOut s
        (match body with
         | .parsed data => errorFieldOr data (statusHTTPMsg status statusText)
         | .parseFail _ => statusHTTPMsg status statusText)
    else
      match body with
      | .parseFail m => statusFailOut s m
      | .parsed data =>
        if (jsField data "error").truthy then
          statusFailOut s (errorFieldMsgC data)
        else
          statusTail s data

/-- Variant C `checkPredictionStatus`: the falsy-id early return, then
the try block. -/
def checkPredictionStatusC (s : StateB) (fetch : FetchResult) : StepOut StateB :=
  if !s.predictionId.truthy then
    { state := s, notices := [], requested := false }
  else
    statusBodyC s fetch

/-- The conditions under which the try block of
`checkPredictionStatus` (variants B and C) reaches its catch block:
network error, unparseable body, HTTP error, truthy `error` field,
falsy `status`, malformed `output` on `completed`, or the remote
`failed` status (which the code routes through the same throw). -/
def statusCheckThrows : FetchResult → Bool
  | .networkError _ => true
  | .response ok _ _ body =>
    !ok ||
    (match body with
     | .parseFail _ => true
     | .parsed data =>
       (jsField data "error").truthy ||
       !(jsField data "status").truthy ||
       ((jsField data "status").isStr "completed" && badOutput data) ||
       (jsField data "status").isStr "failed")

/-- The `Try Again` handler of variants B and C: clears everything
except `garmentUrl`. -/
def handleTryAgainBC (s : StateB) : StateB :=
  { s with modelPreview := none, generatedResult := JsVal.null,
           predictionId := JsVal.null, predictionStatus := JsVal.null,
           error := none, isLoading := false }

/-! ## Camera capture, variant C (`handleCameraUpload`, part_000) -/

/-- The environment one `handleCameraUpload` call runs in: which of
its steps succeed.  `refAttached` is `cameraInputRef.current !== null`
(note: no element in part_000's JSX binds this ref). -/
structure CameraEnv where
  refAttached : Bool
  mediaSupported : Bool
  cameraGranted : Bool
  playOk : Bool
  ctxAvailable : Bool
  dataUrl : String
deriving DecidableEq, Repr

/-- Result of one `handleCameraUpload` call: the new state, the
`showError` calls, whether `getUserMedia` resolved (device acquired)
and whether `stream.getTracks().forEach(track => track.stop())` ran
(device released). -/
structure CameraOut where
  state : StateB
  notices : List ErrorState
  acquired : Bool
  released : Bool

/-- part_000 `handleCameraUpload`: the only `stop()` call sits on the
success path between `drawImage` and `toDataURL`; the catch block and
the early returns never stop the stream. -/
def handleCameraUpload (env : CameraEnv) (s : StateB) : CameraOut :=
  if !env.refAttached then
    { state := s, notices := [], acquired := false, released := false }
  else if !env.mediaSupported then
    { state := showError s "Camera access is not supported in your browser" ErrType.error,
      notices := [{ message := "Camera access is not supported in your browser",
                    type := ErrType.error }],
      acquired := false, released := false }
  else if !env.cameraGranted then
    { state := showError s "Failed to access camera. Please check permissions." ErrType.error,
      notices := [{ message := "Failed to access camera. Please check permissions.",
                    type := ErrType.error }],
      acquired := false, released := false }
  else if !env.playOk then
    { state := showError s "Failed to access camera. Please check permissions." ErrType.error,
      notices := [{ message := "Failed to access camera. Please check permissions.",
                    type := ErrType.error }],
      acquired := true, released := false }
  else if !env.ctxAvailable then
    { state := showError s "Failed to access camera. Please check permissions." ErrType.error,
      notices := [{ message := "Failed to access camera. Please check permissions.",
                    type := ErrType.error }],
      acquired := true, released := false }
  else
    { state := { s with modelPreview := some env.dataUrl, error := none },
      notices := [], acquired := true, released := true }

/-! ## Camera capture, variant B (`CameraModal.takePhoto`) -/

/-- `facingMode` of the camera stream. -/
inductive FacingMode where
  | user
  | environment
deriving DecidableEq, Repr

/-- The CSS transform of the live `video` element:
`facingMode === 'user' ? 'scaleX(-1)' : 'none'` — the preview is
mirrored only for the front camera. -/
def previewMirrored : FacingMode → Bool
  | .user => true
  | .environment => false

/-- Horizontal mirroring of a `w`-pixel-wide frame. -/
def mirrorFrame (w : Nat) (frame : Nat → Nat → Nat) : Nat → Nat → Nat :=
  fun x y => frame (w - 1 - x) y

/-- `takePhoto` of the modal variant: the canvas context receives
`translate(canvas.width, 0)` then `scale(-1, 1)` and then
`drawImage(video, 0, 0)` on every call — no branch consults
`facingMode` — so the captured pixel `(x, y)` is the video frame's
pixel `(w - 1 - x, y)` for either camera. -/
def takePhoto (_facing : FacingMode) (w : Nat) (frame : Nat → Nat → Nat) :
    Nat → Nat → Nat :=
  fun x y => frame (w - 1 - x) y

/-! ## The notification timer (`showError` + `setTimeout`) -/

/-- The notification cell together with the pending
`setTimeout(() => setError(null), 5000)` callbacks (their absolute due
times).  `showError` never cancels a pending timeout. -/
structure NotifState where
  error : Option ErrorState
  clears : List Nat
deriving DecidableEq, Repr

/-- `showError` at absolute time `t`: overwrite the notification and
schedule one more clear at `t + 5000`. -/
def showErrorAt (st : NotifState) (t : Nat) (n : ErrorState) : NotifState :=
  { error := some n, clears := st.clears ++ [t + 5000] }

/-- Fire every timeout due by time `T`: each runs `setError(null)`
unconditionally. -/
def fireDue (st : NotifState) (T : Nat) : NotifState :=
  if st.clears.any (fun c => decide (c ≤ T)) then
    { error := none, clears := st.clears.filter (fun c => decide (T < c)) }
  else st

/-- Run a chronological list of `showError` calls, firing due timeouts
before each call. -/
def runShows : List (Nat × ErrorState) → NotifState → NotifState
  | [], st => st
  | (t, n) :: rest, st => runShows rest (showErrorAt (fireDue st t) t n)

/-- The live notification at time `T`, given the chronological list of
`showError` calls. -/
def errorAt (shows : List (Nat × ErrorState)) (T : Nat) : Option ErrorState :=
  (fireDue (runShows (shows.filter (fun p => decide (p.1 ≤ T)))
      { error := none, clears := [] }) T).error

/-! ## Concrete fixtures -/

/-- Variant A state mid-polling a job. -/
def pollingA : StateA :=
  { initA with
    isLoading := true,
    modelPreview := some "data:image/png;base64,AAAA",
    garmentUrl := "https://shop.example/dress.png",
    predictionId := JsVal.json (Json.str "job1"),
    predictionStatus := JsVal.json (Json.str "processing") }

/-- Variant A state with both inputs present, ready to submit. -/
def readyA : StateA :=
  { initA with
    modelPreview := some "data:image/png;base64,AAAA",
    garmentUrl := "https://shop.example/dress.png" }

/-- Variant B/C state mid-polling a job. -/
def pollingB : StateB :=
  { initB with
    isLoading := true,
    modelPreview := some "data:image/png;base64,AAAA",
    garmentUrl := "https://shop.example/dress.png",
    predictionId := JsVal.json (Json.str "job1"),
    predictionStatus := JsVal.json (Json.str "starting") }

/-- Variant B/C state with both inputs present, ready to submit. -/
def readyB : StateB :=
  { initB with
    modelPreview := some "data:image/png;base64,AAAA",
    garmentUrl := "https://shop.example/dress.png" }

/-- Variant B/C state showing a finished result. -/
def doneB : StateB :=
  { initB with
    garmentUrl := "https://shop.example/dress.png",
    generatedResult := JsVal.json (Json.str "https://x/result.jpg") }

/-- Status body with status `completed` and an empty `output` array. -/
def completedEmptyBody : Json :=
  Json.obj [("status", Json.str "completed"), ("output", Json.arr [])]

/-- Status body with a status outside the documented vocabulary. -/
def queuedBody : Json := Json.obj [("status", Json.str "queued")]

/-- Submission response body carrying only an `id`. -/
def idOnlyBody : Json := Json.obj [("id", Json.str "abc123")]

/-- A camera environment where everything up to `getContext` succeeds
and `getContext('2d')` returns `null`. -/
def ctxFailEnv : CameraEnv :=
  { refAttached := true, mediaSupported := true, cameraGranted := true,
    playOk := true, ctxAvailable := false, dataUrl := "" }

/-- A test frame whose pixel value equals its x coordinate. -/
def xRamp : Nat → Nat → Nat := fun x _ => x

/-- First notification fixture. -/
def nFirst : ErrorState := { message := "first", type := ErrType.error }

/-- Second notification fixture. -/
def nSecond : ErrorState := { message := "second", type := ErrType.error }

/-! ## Helper lemmas -/

theorem isEmpty_false_of_ne {s : String} (h : s ≠ "") : s.isEmpty = false := by
  simpa using mt (String.isEmpty_iff s).mp h

theorem isStr_eq (v : JsVal) (a : String) (h : v.isStr a = true) :
    v = JsVal.json (Json.str a) := by
  cases v with
  | null => simp [JsVal.isStr] at h
  | undef => simp [JsVal.isStr] at h
  | json j =>
    cases j with
    | str t =>
      have : t = a := by simpa [JsVal.isStr] using h
      rw [this]
    | null => simp [JsVal.isStr] at h
    | bool b => simp [JsVal.isStr] at h
    | num n => simp [JsVal.isStr] at h
    | arr xs => simp [JsVal.isStr] at h
    | obj fs => simp [JsVal.isStr] at h

theorem submitGuard_none (s : StateB) (hm : optStrTruthy s.modelPreview = true)
    (hg : s.garmentUrl.isEmpty = false) : submitGuard s = none := by
  simp [submitGuard, hm, hg]

theorem startPredictionB_eq_body (s : StateB) (fetch : FetchResult)
    (hm : optStrTruthy s.modelPreview = true) (hg : s.garmentUrl.isEmpty = false) :
    startPredictionB s fetch = submitBodyB s fetch := by
  simp [startPredictionB, submitGuard_none s hm hg]

theorem startPredictionC_eq_body (s : StateB) (fetch : FetchResult)
    (hm : optStrTruthy s.modelPreview = true) (hg : s.garmentUrl.isEmpty = false) :
    startPredictionC s fetch = submitBodyC s fetch := by
  simp [startPredictionC, submitGuard_none s hm hg]

theorem checkB_eq_body (s : StateB) (fetch : FetchResult)
    (hid : s.predictionId.truthy = true) :
    checkPredictionStatusB s fetch = statusBodyB s fetch := by
  simp [checkPredictionStatusB, hid]

theorem checkC_eq_body (s : StateB) (fetch : FetchResult)
    (hid : s.predictionId.truthy = true) :
    checkPredictionStatusC s fetch = statusBodyC s fetch := by
  simp [checkPredictionStatusC, hid]

theorem statusBodyB_parsed_ok (s : StateB) (st : Nat) (stx : String) (data : Json)
    (herr : (jsField data "error").truthy = false) :
    statusBodyB s (FetchResult.response true st stx (Body.parsed data)) =
      statusTail s data := by
  simp [statusBodyB, herr]

theorem statusBodyC_parsed_ok (s : StateB) (st : Nat) (stx : String) (data : Json)
    (herr : (jsField data "error").truthy = false) :
    statusBodyC s (FetchResult.response true st stx (Body.parsed data)) =
      statusTail s data := by
  simp [statusBodyC, herr]

theorem checkB_ok_parsed (s : StateB) (st : Nat) (stx : String) (data : Json)
    (hid : s.predictionId.truthy = true)
    (herr : (jsField data "error").truthy = false) :
    checkPredictionStatusB s (FetchResult.response true st stx (Body.parsed data)) =
      statusTail s data := by
  rw [checkB_eq_body s _ hid, statusBodyB_parsed_ok s st stx data herr]

theorem checkC_ok_parsed (s : StateB) (st : Nat) (stx : String) (data : Json)
    (hid : s.predictionId.truthy = true)
    (herr : (jsField data "error").truthy = false) :
    checkPredictionStatusC s (FetchResult.response true st stx (Body.parsed data)) =
      statusTail s data := by
  rw [checkC_eq_body s _ hid, statusBodyC_parsed_ok s st stx data herr]

theorem statusTail_missing (s : StateB) (data : Json)
    (hstat : (jsField data "status").truthy = false) :
    statusTail s data = statusFailOut s "Invalid response: missing status" := by
  unfold statusTail
  rw [hstat]
  rfl

theorem statusTail_completed_good (s : StateB) (data : Json) (x : Json) (xs : List Json)
    (hst : jsField data "status" = JsVal.json (Json.str "completed"))
    (hout : jsField data "output" = JsVal.json (Json.arr (x :: xs))) :
    statusTail s data =
      { state :=
          { s with
            predictionStatus := JsVal.json (Json.str "completed"),
            generatedResult := JsVal.json x, isLoading := false,
            predictionId := JsVal.null, error := none },
        notices := [], requested := true } := by
  unfold statusTail badOutput outputFirst
  rw [hst, hout]
  rfl

theorem statusTail_completed_bad (s : StateB) (data : Json)
    (hst : jsField data "status" = JsVal.json (Json.str "completed"))
    (hbad : badOutput data = true) :
    statusTail s data =
      statusFailOut { s with predictionStatus := JsVal.json (Json.str "completed") }
        "Invalid response: missing or empty output array" := by
  unfold statusTail
  rw [hst, hbad]
  rfl

theorem statusTail_failed (s : StateB) (data : Json)
    (hst : jsField data "status" = JsVal.json (Json.str "failed")) :
    statusTail s data =
      statusFailOut { s with predictionStatus := JsVal.json (Json.str "failed") }
        "Prediction failed without specific error message" := by
  unfold statusTail
  rw [hst]
  rfl

theorem statusTail_unknown (s : StateB) (data : Json) (v : String)
    (hst : jsField data "status" = JsVal.json (Json.str v))
    (hne : v ≠ "") (hnc : v ≠ "completed") (hnf : v ≠ "failed") :
    statusTail s data =
      { state := { s with predictionStatus := JsVal.json (Json.str v) },
        notices := [], requested := true } := by
  have h1 : (v == "completed") = false := by simpa using hnc
  have h2 : (v == "failed") = false := by simpa using hnf
  have h3 : v.isEmpty = false := isEmpty_false_of_ne hne
  unfold statusTail
  rw [hst]
  simp [JsVal.truthy, Json.truthy, JsVal.isStr, h1, h2, h3]

theorem statusTail_throws (s : StateB) (data : Json)
    (h : ((jsField data "status").truthy = false ∨
          ((jsField data "status").isStr "completed" = true ∧ badOutput data = true)) ∨
         (jsField data "status").isStr "failed" = true) :
    ∃ s1 m, statusTail s data = statusFailOut s1 m := by
  rcases h with (hstat | ⟨hcomp, hbad⟩) | hfail
  · exact ⟨s, _, statusTail_missing s data hstat⟩
  · exact ⟨_, _, statusTail_completed_bad s data (isStr_eq _ _ hcomp) hbad⟩
  · exact ⟨_, _, statusTail_failed s data (isStr_eq _ _ hfail)⟩

theorem statusBodyB_throws (s : StateB) (fetch : FetchResult)
    (hthrow : statusCheckThrows fetch = true) :
    ∃ s1 m, statusBodyB s fetch = statusFailOut s1 m := by
  cases fetch with
  | networkError m => exact ⟨s, m, rfl⟩
  | response ok st stx body =>
    cases body with
    | parseFail m => cases ok <;> exact ⟨s, m, rfl⟩
    | parsed data =>
      cases ok with
      | false => exact ⟨s, _, rfl⟩
      | true =>
        cases herr : (jsField data "error").truthy with
        | true =>
          refine ⟨s, errorFieldMsgB data, ?_⟩
          simp [statusBodyB, herr]
        | false =>
          rw [statusBodyB_parsed_ok s st stx data herr]
          refine statusTail_throws s data ?_
          simpa [statusCheckThrows, herr] using hthrow

theorem statusBodyC_throws (s : StateB) (fetch : FetchResult)
    (hthrow : statusCheckThrows fetch = true) :
    ∃ s1 m, statusBodyC s fetch = statusFailOut s1 m := by
  cases fetch with
  | networkError m => exact ⟨s, m, rfl⟩
  | response ok st stx body =>
    cases ok with
    | false => exact ⟨s, _, rfl⟩
    | true =>
      cases body with
      | parseFail m => exact ⟨s, m, rfl⟩
      | parsed data =>
        cases herr : (jsField data "error").truthy with
        | true =>
          refine ⟨s, errorFieldMsgC data, ?_⟩
          simp [statusBodyC, herr]
        | false =>
          rw [statusBodyC_parsed_ok s st stx data herr]
          refine statusTail_throws s data ?_
          simpa [statusCheckThrows, herr] using hthrow

/-! ## Claim theorems -/

/-- C1, counterexample.  In variant A a `completed` status with an
empty `output` array is not a malformed-response failure: no
notification is emitted and the controller finishes the job with the
stored result being JS `undefined` (`data.output[0]` of `[]`) — the
exact transition the claim rules out. -/
theorem c1_counterexample :
    (checkPredictionStatusA pollingA
      (FetchResult.response true 200 "OK" (Body.parsed completedEmptyBody))).state.generatedResult
      = JsVal.undef ∧
    (checkPredictionStatusA pollingA
      (FetchResult.response true 200 "OK" (Body.parsed completedEmptyBody))).notices = [] ∧
    (checkPredictionStatusA pollingA
      (FetchResult.response true 200 "OK" (Body.parsed completedEmptyBody))).state.predictionId
      = JsVal.null ∧
    (checkPredictionStatusA pollingA
      (FetchResult.response true 200 "OK" (Body.parsed completedEmptyBody))).state.isLoading
      = false :=
  ⟨rfl, rfl, rfl, rfl⟩

/-- C2, counterexample.  In variant A a failed status fetch (network
error) changes nothing: the job id is kept, no notification exists,
and the polling-effect guard still holds, so the same job keeps being
polled. -/
theorem c2_counterexample :
    checkPredictionStatusA pollingA (FetchResult.networkError "Failed to fetch") =
      { state := pollingA, notices := [], requested := true } ∧
    pollingTimerOn pollingA.predictionId pollingA.predictionStatus = true :=
  ⟨rfl, rfl⟩

/-- C3, counterexample.  Even the validated variant B stores an
unknown `status` value (`queued`) verbatim, emits nothing, and leaves
the polling-effect guard true — the unknown value is a silent
pass-through, not an error condition. -/
theorem c3_counterexample :
    checkPredictionStatusB pollingB
      (FetchResult.response true 200 "OK" (Body.parsed queuedBody)) =
      { state := { pollingB with predictionStatus := JsVal.json (Json.str "queued") },
        notices := [], requested := true } ∧
    pollingTimerOn (JsVal.json (Json.str "job1")) (JsVal.json (Json.str "queued")) = true :=
  ⟨rfl, rfl⟩

/-- C4, counterexample.  In variant A a submit with the model image
missing stays idle and issues no request, but produces no warning
notification at all (the handler just returns). -/
theorem c4_counterexample :
    startPredictionA { initA with garmentUrl := "https://shop.example/dress.png" }
      (FetchResult.networkError "unused") =
      { state := { initA with garmentUrl := "https://shop.example/dress.png" },
        notices := [], requested := false } :=
  rfl

/-- C5, counterexample.  Variant A ignores the HTTP status: a 500
response whose body carries an `id` and no `error` field is treated as
success — the job id is stored and no SubmissionError is surfaced. -/
theorem c5_counterexample :
    (startPredictionA readyA
      (FetchResult.response false 500 "Internal Server Error" (Body.parsed idOnlyBody))).state.predictionId
      = JsVal.json (Json.str "abc123") ∧
    (startPredictionA readyA
      (FetchResult.response false 500 "Internal Server Error" (Body.parsed idOnlyBody))).notices
      = [] :=
  ⟨rfl, rfl⟩

/-- C6, counterexample.  A notification shown at t=3000 while one from
t=0 is still live is visible at t=4999 but already cleared at t=6000:
the first notification's timeout is never cancelled, so the second
does not stay for its full 5 seconds (it should last until t=8000). -/
theorem c6_counterexample :
    errorAt [(0, nFirst), (3000, nSecond)] 4999 = some nSecond ∧
    errorAt [(0, nFirst), (3000, nSecond)] 6000 = none := by
  decide

/-- C7, counterexample.  `Try Again` does not clear the garment
reference: after a reset from a completed state the garment URL is
still set, unlike every other input. -/
theorem c7_counterexample :
    (handleTryAgainBC doneB).garmentUrl = "https://shop.example/dress.png" ∧
    (handleTryAgainBC doneB).garmentUrl ≠ initB.garmentUrl :=
  ⟨rfl, by decide⟩

/-- C8.  The modal variant's `takePhoto` flips every captured frame:
for the back camera the captured pixel row equals the mirrored frame
and differs from the unmirrored one, while the live preview is
unmirrored — the capture contradicts the front-camera-only mirroring
stated by the claim and by the code's own comment and preview
transform. -/
theorem c8_thm :
    takePhoto FacingMode.environment 2 xRamp 0 0 = mirrorFrame 2 xRamp 0 0 ∧
    takePhoto FacingMode.environment 2 xRamp 0 0 ≠ xRamp 0 0 ∧
    previewMirrored FacingMode.environment = false ∧
    previewMirrored FacingMode.user = true :=
  ⟨rfl, by decide, rfl, rfl⟩

/-- C9.  part_000's `handleCameraUpload` leaks the device on the
early-failure path: when `getContext('2d')` returns `null` after
`getUserMedia` succeeded, the stream is acquired but never released
(the only `stop()` call sits later on the success path, which does
release it). -/
theorem c9_thm :
    (handleCameraUpload ctxFailEnv initB).acquired = true ∧
    (handleCameraUpload ctxFailEnv initB).released = false ∧
    (handleCameraUpload
      { ctxFailEnv with ctxAvailable := true, dataUrl := "data:image/jpeg;base64,AA" }
      initB).released = true :=
  ⟨rfl, rfl, rfl⟩

/-- C10.  In every variant, a status check while the job id is falsy
(`null`, `undefined` or empty) returns immediately: no request is
issued, no notification is emitted and the state is unchanged. -/
theorem c10_thm (sa : StateA) (sb : StateB) (fetch : FetchResult)
    (ha : sa.predictionId.truthy = false) (hb : sb.predictionId.truthy = false) :
    checkPredictionStatusA sa fetch = { state := sa, notices := [], requested := false } ∧
    checkPredictionStatusB sb fetch = { state := sb, notices := [], requested := false } ∧
    checkPredictionStatusC sb fetch = { state := sb, notices := [], requested := false } := by
  unfold checkPredictionStatusA checkPredictionStatusB checkPredictionStatusC
  simp [ha, hb]

/-- C10, witness: the no-job-id no-op at the initial states. -/
theorem c10_witness :
    checkPredictionStatusA initA (FetchResult.networkError "Failed to fetch") =
      { state := initA, notices := [], requested := false } ∧
    checkPredictionStatusB initB (FetchResult.networkError "Failed to fetch") =
      { state := initB, notices := [], requested := false } ∧
    checkPredictionStatusC initB (FetchResult.networkError "Failed to fetch") =
      { state := initB, notices := [], requested := false } :=
  c10_thm initA initB (FetchResult.networkError "Failed to fetch") rfl rfl


/-- C1, amended: in variants B and C a `completed` status with a
non-empty `output` array stores the array's first element as the
result, while an absent, non-array or empty `output` reaches the catch
block — the malformed-response notification is shown, the job id is
cleared, and the previous result is untouched.  (Variant A, see the
counterexample, performs no such check.) -/
theorem c1_amended (s : StateB) (st : Nat) (stx : String) (data : Json)
    (x : Json) (xs : List Json)
    (hid : s.predictionId.truthy = true)
    (herr : (jsField data "error").truthy = false)
    (hst : jsField data "status" = JsVal.json (Json.str "completed")) :
    (jsField data "output" = JsVal.json (Json.arr (x :: xs)) →
      checkPredictionStatusB s (FetchResult.response true st stx (Body.parsed data)) =
        { state :=
            { s with
              predictionStatus := JsVal.json (Json.str "completed"),
              generatedResult := JsVal.json x, isLoading := false,
              predictionId := JsVal.null, error := none },
          notices := [], requested := true } ∧
      checkPredictionStatusC s (FetchResult.response true st stx (Body.parsed data)) =
        { state :=
            { s with
              predictionStatus := JsVal.json (Json.str "completed"),
              generatedResult := JsVal.json x, isLoading := false,
              predictionId := JsVal.null, error := none },
          notices := [], requested := true }) ∧
    (badOutput data = true →
      checkPredictionStatusB s (FetchResult.response true st stx (Body.parsed data)) =
        statusFailOut { s with predictionStatus := JsVal.json (Json.str "completed") }
          "Invalid response: missing or empty output array" ∧
      checkPredictionStatusC s (FetchResult.response true st stx (Body.parsed data)) =
        statusFailOut { s with predictionStatus := JsVal.json (Json.str "completed") }
          "Invalid response: missing or empty output array" ∧
      (checkPredictionStatusB s (FetchResult.response true st stx (Body.parsed data))).state.generatedResult
        = s.generatedResult) := by
  constructor
  · intro hout
    constructor
    · rw [checkB_ok_parsed s st stx data hid herr,
          statusTail_completed_good s data x xs hst hout]
    · rw [checkC_ok_parsed s st stx data hid herr,
          statusTail_completed_good s data x xs hst hout]
  · intro hbad
    refine ⟨?_, ?_, ?_⟩
    · rw [checkB_ok_parsed s st stx data hid herr,
          statusTail_completed_bad s data hst hbad]
    · rw [checkC_ok_parsed s st stx data hid herr,
          statusTail_completed_bad s data hst hbad]
    · rw [checkB_ok_parsed s st stx data hid herr,
          statusTail_completed_bad s data hst hbad]
      rfl

/-- C1, witness: a completed response with one output URL stores it;
the `completedEmptyBody` response instead produces the
malformed-output failure. -/
theorem c1_witness :
    checkPredictionStatusB pollingB
      (FetchResult.response true 200 "OK"
        (Body.parsed (Json.obj [("status", Json.str "completed"),
          ("output", Json.arr [Json.str "https://x/result.jpg"])]))) =
      { state :=
          { pollingB with
            predictionStatus := JsVal.json (Json.str "completed"),
            generatedResult := JsVal.json (Json.str "https://x/result.jpg"),
            isLoading := false, predictionId := JsVal.null, error := none },
        notices := [], requested := true } ∧
    checkPredictionStatusB pollingB
      (FetchResult.response true 200 "OK" (Body.parsed completedEmptyBody)) =
      statusFailOut { pollingB with predictionStatus := JsVal.json (Json.str "completed") }
        "Invalid response: missing or empty output array" := by
  constructor
  · exact ((c1_amended pollingB 200 "OK"
      (Json.obj [("status", Json.str "completed"),
        ("output", Json.arr [Json.str "https://x/result.jpg"])])
      (Json.str "https://x/result.jpg") [] rfl rfl rfl).1 rfl).1
  · exact ((c1_amended pollingB 200 "OK" completedEmptyBody
      (Json.str "") [] rfl rfl rfl).2 rfl).1

/-- C2, amended: in variants B and C every throwing status check —
network error, unparseable body, HTTP error, truthy `error` field,
missing status, malformed output on `completed` (and the remote
`failed` status, which shares the catch block) — surfaces an
error-severity notification, clears the job id, resets the loading
flag, and turns the polling-effect guard off.  (Variant A, see the
counterexample, just logs and keeps polling.) -/
theorem c2_amended (s : StateB) (fetch : FetchResult)
    (hid : s.predictionId.truthy = true)
    (hthrow : statusCheckThrows fetch = true) :
    (checkPredictionStatusB s fetch).state.predictionId = JsVal.null ∧
    (checkPredictionStatusB s fetch).state.isLoading = false ∧
    (∃ m, (checkPredictionStatusB s fetch).state.error =
            some { message := m, type := ErrType.error } ∧
          (checkPredictionStatusB s fetch).notices =
            [{ message := m, type := ErrType.error }]) ∧
    pollingTimerOn (checkPredictionStatusB s fetch).state.predictionId
      (checkPredictionStatusB s fetch).state.predictionStatus = false ∧
    (checkPredictionStatusC s fetch).state.predictionId = JsVal.null ∧
    (checkPredictionStatusC s fetch).state.isLoading = false ∧
    (∃ m, (checkPredictionStatusC s fetch).state.error =
            some { message := m, type := ErrType.error } ∧
          (checkPredictionStatusC s fetch).notices =
            [{ message := m, type := ErrType.error }]) ∧
    pollingTimerOn (checkPredictionStatusC s fetch).state.predictionId
      (checkPredictionStatusC s fetch).state.predictionStatus = false := by
  obtain ⟨s1, m1, h1⟩ := statusBodyB_throws s fetch hthrow
  obtain ⟨s2, m2, h2⟩ := statusBodyC_throws s fetch hthrow
  rw [checkB_eq_body s fetch hid, checkC_eq_body s fetch hid, h1, h2]
  exact ⟨rfl, rfl, ⟨m1, rfl, rfl⟩, rfl, rfl, rfl, ⟨m2, rfl, rfl⟩, rfl⟩

/-- C2, witness: a network error mid-polling aborts the job in
variants B and C. -/
theorem c2_witness :
    (checkPredictionStatusB pollingB (FetchResult.networkError "Failed to fetch")).state.predictionId
      = JsVal.null ∧
    (∃ m, (checkPredictionStatusB pollingB (FetchResult.networkError "Failed to fetch")).state.error =
            some { message := m, type := ErrType.error } ∧
          (checkPredictionStatusB pollingB (FetchResult.networkError "Failed to fetch")).notices =
            [{ message := m, type := ErrType.error }]) ∧
    pollingTimerOn
      (checkPredictionStatusC pollingB (FetchResult.networkError "Failed to fetch")).state.predictionId
      (checkPredictionStatusC pollingB (FetchResult.networkError "Failed to fetch")).state.predictionStatus
      = false := by
  have h := c2_amended pollingB (FetchResult.networkError "Failed to fetch") rfl rfl
  exact ⟨h.1, h.2.2.1, h.2.2.2.2.2.2.2⟩

/-- C3, amended: a `status` value that is a non-empty string outside
the documented vocabulary is stored verbatim by every variant, no
notification is emitted, the job id is kept, and the polling-effect
guard stays on; only an absent or falsy status is an error in variants
B and C. -/
theorem c3_amended (sa : StateA) (s : StateB) (st : Nat) (stx : String)
    (data : Json) (v : String)
    (hidA : sa.predictionId.truthy = true) (hid : s.predictionId.truthy = true)
    (herr : (jsField data "error").truthy = false)
    (hst : jsField data "status" = JsVal.json (Json.str v))
    (hne : v ≠ "") (hnc : v ≠ "completed") (hnf : v ≠ "failed") :
    checkPredictionStatusB s (FetchResult.response true st stx (Body.parsed data)) =
      { state := { s with predictionStatus := JsVal.json (Json.str v) },
        notices := [], requested := true } ∧
    checkPredictionStatusC s (FetchResult.response true st stx (Body.parsed data)) =
      { state := { s with predictionStatus := JsVal.json (Json.str v) },
        notices := [], requested := true } ∧
    checkPredictionStatusA sa (FetchResult.response true st stx (Body.parsed data)) =
      { state := { sa with predictionStatus := JsVal.json (Json.str v) },
        notices := [], requested := true } ∧
    pollingTimerOn s.predictionId (JsVal.json (Json.str v)) = true := by
  have h1 : (v == "completed") = false := by simpa using hnc
  have h2 : (v == "failed") = false := by simpa using hnf
  refine ⟨?_, ?_, ?_, ?_⟩
  · rw [checkB_ok_parsed s st stx data hid herr,
        statusTail_unknown s data v hst hne hnc hnf]
  · rw [checkC_ok_parsed s st stx data hid herr,
        statusTail_unknown s data v hst hne hnc hnf]
  · simp [checkPredictionStatusA, hidA, hst, JsVal.isStr, h1, h2]
  · simp [pollingTimerOn, JsVal.isStr, hid, h1, h2]

/-- C3, witness: a `queued` status is stored and polling continues in
all three variants. -/
theorem c3_witness :
    checkPredictionStatusC pollingB
      (FetchResult.response true 200 "OK" (Body.parsed queuedBody)) =
      { state := { pollingB with predictionStatus := JsVal.json (Json.str "queued") },
        notices := [], requested := true } ∧
    checkPredictionStatusA pollingA
      (FetchResult.response true 200 "OK" (Body.parsed queuedBody)) =
      { state := { pollingA with predictionStatus := JsVal.json (Json.str "queued") },
        notices := [], requested := true } ∧
    pollingTimerOn pollingB.predictionId (JsVal.json (Json.str "queued")) = true := by
  have h := c3_amended pollingA pollingB 200 "OK" queuedBody "queued"
    rfl rfl rfl rfl (by decide) (by decide) (by decide)
  exact ⟨h.2.1, h.2.2.1, h.2.2.2⟩



theorem errorFieldOr_fallback (data : Json) (fb : String)
    (herr : (jsField data "error").truthy = false) :
    errorFieldOr data fb = fb := by
  unfold errorFieldOr
  cases hv : jsField data "error" with
  | null => rfl
  | undef => rfl
  | json v =>
    rw [hv] at herr
    simp [JsVal.truthy] at herr
    simp [herr]

theorem errorFieldOr_str (data : Json) (fb e : String)
    (hv : jsField data "error" = JsVal.json (Json.str e)) (he : e ≠ "") :
    errorFieldOr data fb = e := by
  unfold errorFieldOr
  rw [hv]
  simp [JsVal.truthy, Json.truthy, isEmpty_false_of_ne he, jsToString]

theorem errorFieldOr_truthy (data : Json) (fb : String) (v : Json)
    (hv : jsField data "error" = JsVal.json v) (hT : v.truthy = true) :
    errorFieldOr data fb = jsToString v := by
  unfold errorFieldOr
  rw [hv]
  simp [hT]

theorem errorFieldMsgB_str (data : Json) (e : String)
    (hv : jsField data "error" = JsVal.json (Json.str e)) :
    errorFieldMsgB data = e := by
  unfold errorFieldMsgB
  rw [hv]
  simp [jsToString]

theorem errorFieldMsgC_str (data : Json) (e : String)
    (hv : jsField data "error" = JsVal.json (Json.str e)) :
    errorFieldMsgC data = "API Error: " ++ e := by
  unfold errorFieldMsgC
  rw [hv]
  simp [jsToString]

theorem errTruthy_of_str (data : Json) (e : String)
    (hv : jsField data "error" = JsVal.json (Json.str e)) (he : e ≠ "") :
    (jsField data "error").truthy = true := by
  rw [hv]
  simp [JsVal.truthy, Json.truthy, isEmpty_false_of_ne he]

/-- C4, amended: in variants B and C a submit with a missing model
image or garment URL leaves everything but the notification unchanged,
shows a warning-severity notification, and issues no request; variant
A also stays idle without a request but emits no notification at all
(its UI only disables the button). -/
theorem c4_amended (sa : StateA) (s : StateB) (fetch : FetchResult) :
    (optStrTruthy sa.modelPreview = false ∨ sa.garmentUrl.isEmpty = true →
      startPredictionA sa fetch = { state := sa, notices := [], requested := false }) ∧
    (optStrTruthy s.modelPreview = false →
      startPredictionB s fetch =
        { state := showError s "Please upload or take a photo of the model" ErrType.warning,
          notices := [{ message := "Please upload or take a photo of the model",
                        type := ErrType.warning }],
          requested := false } ∧
      startPredictionC s fetch =
        { state := showError s "Please upload or take a photo of the model" ErrType.warning,
          notices := [{ message := "Please upload or take a photo of the model",
                        type := ErrType.warning }],
          requested := false }) ∧
    (optStrTruthy s.modelPreview = true → s.garmentUrl.isEmpty = true →
      startPredictionB s fetch =
        { state := showError s "Please provide a garment image URL" ErrType.warning,
          notices := [{ message := "Please provide a garment image URL",
                        type := ErrType.warning }],
          requested := false } ∧
      startPredictionC s fetch =
        { state := showError s "Please provide a garment image URL" ErrType.warning,
          notices := [{ message := "Please provide a garment image URL",
                        type := ErrType.warning }],
          requested := false }) := by
  refine ⟨fun h => ?_, fun hm => ⟨?_, ?_⟩, fun hm hg => ⟨?_, ?_⟩⟩
  · rcases h with h | h <;> simp [startPredictionA, h]
  · simp [startPredictionB, submitGuard, hm]
  · simp [startPredictionC, submitGuard, hm]
  · simp [startPredictionB, submitGuard, hm, hg]
  · simp [startPredictionC, submitGuard, hm, hg]

/-- C4, witness: submitting from the initial states (no model image)
warns in B and C and silently no-ops in A. -/
theorem c4_witness :
    startPredictionA initA (FetchResult.networkError "unused") =
      { state := initA, notices := [], requested := false } ∧
    startPredictionB initB (FetchResult.networkError "unused") =
      { state := showError initB "Please upload or take a photo of the model" ErrType.warning,
        notices := [{ message := "Please upload or take a photo of the model",
                      type := ErrType.warning }],
        requested := false } := by
  have h := c4_amended initA initB (FetchResult.networkError "unused")
  exact ⟨h.1 (Or.inl rfl), (h.2.1 rfl).1⟩

/-- C5, amended: in variants B and C a submit succeeds exactly when
the HTTP status is a success, the body parses, the `error` field is
not truthy and the `id` field is truthy; every violation runs the
catch block — an error-severity notification, `isLoading` reset, and
no job id stored — with the body's error text when a parsed body
carries one (any truthy `error` value: its JS string coercion on the
non-ok path of both variants, variant B's stringify-object rule and
variant C's `API Error: ` template on the ok path), the HTTP status
line when the HTTP status is an error and no body error text is
available, the parse diagnostic for an unparseable body on the ok
path (variant C falls back to the HTTP line when the status is also
an error), and fixed texts otherwise.  Variant A (see the
counterexample) checks only the `error` field. -/
theorem c5_amended (s : StateB) (st : Nat) (stx : String)
    (hm : optStrTruthy s.modelPreview = true) (hg : s.garmentUrl.isEmpty = false) :
    (∀ data, (jsField data "error").truthy = false → (jsField data "id").truthy = true →
      startPredictionB s (FetchResult.response true st stx (Body.parsed data)) =
        submitOkOut (submitting s) data ∧
      startPredictionC s (FetchResult.response true st stx (Body.parsed data)) =
        submitOkOut (submitting s) data) ∧
    (∀ data e, jsField data "error" = JsVal.json (Json.str e) → e ≠ "" →
      startPredictionB s (FetchResult.response false st stx (Body.parsed data)) =
        submitFailOut (submitting s) e ∧
      startPredictionC s (FetchResult.response false st stx (Body.parsed data)) =
        submitFailOut (submitting s) e) ∧
    (∀ data, (jsField data "error").truthy = false →
      startPredictionB s (FetchResult.response false st stx (Body.parsed data)) =
        submitFailOut (submitting s) (submitHTTPMsg st stx) ∧
      startPredictionC s (FetchResult.response false st stx (Body.parsed data)) =
        submitFailOut (submitting s) (submitHTTPMsg st stx)) ∧
    (∀ data e, jsField data "error" = JsVal.json (Json.str e) → e ≠ "" →
      startPredictionB s (FetchResult.response true st stx (Body.parsed data)) =
        submitFailOut (submitting s) e ∧
      startPredictionC s (FetchResult.response true st stx (Body.parsed data)) =
        submitFailOut (submitting s) ("API Error: " ++ e)) ∧
    (∀ data, (jsField data "error").truthy = false → (jsField data "id").truthy = false →
      startPredictionB s (FetchResult.response true st stx (Body.parsed data)) =
        submitFailOut (submitting s) "Invalid response: missing prediction ID" ∧
      startPredictionC s (FetchResult.response true st stx (Body.parsed data)) =
        submitFailOut (submitting s) "Invalid response: missing prediction ID") ∧
    (∀ m, startPredictionB s (FetchResult.response true st stx (Body.parseFail m)) =
        submitFailOut (submitting s) m ∧
      startPredictionC s (FetchResult.response true st stx (Body.parseFail m)) =
        submitFailOut (submitting s) m ∧
      startPredictionB s (FetchResult.response false st stx (Body.parseFail m)) =
        submitFailOut (submitting s) m ∧
      startPredictionC s (FetchResult.response false st stx (Body.parseFail m)) =
        submitFailOut (submitting s) (submitHTTPMsg st stx)) ∧
    (∀ m, startPredictionB s (FetchResult.networkError m) =
        submitFailOut (submitting s) m ∧
      startPredictionC s (FetchResult.networkError m) =
        submitFailOut (submitting s) m) ∧
    (∀ s1 m, (submitFailOut s1 m).state.predictionId = s1.predictionId ∧
      (submitFailOut s1 m).state.error = some { message := m, type := ErrType.error } ∧
      (submitFailOut s1 m).state.isLoading = false) ∧
    (∀ data v, jsField data "error" = JsVal.json v → v.truthy = true →
      startPredictionB s (FetchResult.response false st stx (Body.parsed data)) =
        submitFailOut (submitting s) (jsToString v) ∧
      startPredictionC s (FetchResult.response false st stx (Body.parsed data)) =
        submitFailOut (submitting s) (jsToString v)) ∧
    (∀ data v, jsField data "error" = JsVal.json v → v.truthy = true →
      startPredictionB s (FetchResult.response true st stx (Body.parsed data)) =
        submitFailOut (submitting s) (errorFieldMsgB data) ∧
      startPredictionC s (FetchResult.response true st stx (Body.parsed data)) =
        submitFailOut (submitting s) (errorFieldMsgC data)) := by
  have eB : ∀ fetch, startPredictionB s fetch = submitBodyB s fetch :=
    fun fetch => startPredictionB_eq_body s fetch hm hg
  have eC : ∀ fetch, startPredictionC s fetch = submitBodyC s fetch :=
    fun fetch => startPredictionC_eq_body s fetch hm hg
  refine ⟨?_, ?_, ?_, ?_, ?_, ?_, ?_, ?_, ?_, ?_⟩
  · intro data herr hidt
    simp only [eB, eC]
    constructor <;> simp [submitBodyB, submitBodyC, herr, hidt]
  · intro data e hv he
    simp only [eB, eC]
    constructor
    · simp [submitBodyB, errorFieldOr_str data (submitHTTPMsg st stx) e hv he]
    · simp [submitBodyC, errorFieldOr_str data (submitHTTPMsg st stx) e hv he]
  · intro data herr
    simp only [eB, eC]
    constructor
    · simp [submitBodyB, errorFieldOr_fallback data (submitHTTPMsg st stx) herr]
    · simp [submitBodyC, errorFieldOr_fallback data (submitHTTPMsg st stx) herr]
  · intro data e hv he
    have herrT := errTruthy_of_str data e hv he
    simp only [eB, eC]
    constructor
    · simp [submitBodyB, herrT, errorFieldMsgB_str data e hv]
    · simp [submitBodyC, herrT, errorFieldMsgC_str data e hv]
  · intro data herr hidf
    simp only [eB, eC]
    constructor <;> simp [submitBodyB, submitBodyC, herr, hidf]
  · intro m
    simp only [eB, eC]
    exact ⟨rfl, rfl, rfl, rfl⟩
  · intro m
    simp only [eB, eC]
    exact ⟨rfl, rfl⟩
  · intro s1 m
    exact ⟨rfl, rfl, rfl⟩
  · intro data v hv hT
    simp only [eB, eC]
    constructor
    · simp [submitBodyB, errorFieldOr_truthy data (submitHTTPMsg st stx) v hv hT]
    · simp [submitBodyC, errorFieldOr_truthy data (submitHTTPMsg st stx) v hv hT]
  · intro data v hv hT
    have herrT : (jsField data "error").truthy = true := by
      rw [hv]
      simpa [JsVal.truthy] using hT
    simp only [eB, eC]
    constructor
    · simp [submitBodyB, herrT]
    · simp [submitBodyC, herrT]

/-- C5, witness: a well-formed id response succeeds, an HTTP 500 with
an empty body object fails with the status line, an ok response with a
string `error` fails with the body text, and an ok response with an
object-shaped `error` fails with variant B's stringified object. -/
theorem c5_witness :
    startPredictionB readyB (FetchResult.response true 200 "OK" (Body.parsed idOnlyBody)) =
      submitOkOut (submitting readyB) idOnlyBody ∧
    startPredictionC readyB
        (FetchResult.response false 500 "Internal Server Error" (Body.parsed (Json.obj []))) =
      submitFailOut (submitting readyB) (submitHTTPMsg 500 "Internal Server Error") ∧
    startPredictionB readyB
        (FetchResult.response true 200 "OK"
          (Body.parsed (Json.obj [("error", Json.str "pose not detected")]))) =
      submitFailOut (submitting readyB) "pose not detected" ∧
    startPredictionB readyB
        (FetchResult.response true 200 "OK"
          (Body.parsed (Json.obj [("error", Json.obj [("message", Json.str "bad pose")])]))) =
      submitFailOut (submitting readyB)
        (errorFieldMsgB (Json.obj [("error", Json.obj [("message", Json.str "bad pose")])])) ∧
    startPredictionC readyB
        (FetchResult.response false 500 "Internal Server Error"
          (Body.parsed (Json.obj [("error", Json.obj [("message", Json.str "bad pose")])]))) =
      submitFailOut (submitting readyB)
        (jsToString (Json.obj [("message", Json.str "bad pose")])) := by
  refine ⟨?_, ?_, ?_, ?_, ?_⟩
  · exact ((c5_amended readyB 200 "OK" rfl rfl).1 idOnlyBody rfl rfl).1
  · exact ((c5_amended readyB 500 "Internal Server Error" rfl rfl).2.2.1
      (Json.obj []) rfl).2
  · exact ((c5_amended readyB 200 "OK" rfl rfl).2.2.2.1
      (Json.obj [("error", Json.str "pose not detected")]) "pose not detected"
      rfl (by decide)).1
  · exact ((c5_amended readyB 200 "OK" rfl rfl).2.2.2.2.2.2.2.2.2
      (Json.obj [("error", Json.obj [("message", Json.str "bad pose")])])
      (Json.obj [("message", Json.str "bad pose")]) rfl rfl).1
  · exact ((c5_amended readyB 500 "Internal Server Error" rfl rfl).2.2.2.2.2.2.2.2.1
      (Json.obj [("error", Json.obj [("message", Json.str "bad pose")])])
      (Json.obj [("message", Json.str "bad pose")]) rfl rfl).2



/-- C6, amended: at most one notification is live (the cell is a
single value) and a new one overwrites the older one, but the older
notification's timeout is never cancelled: the new notification is
cleared as soon as the older timer fires, so it can be visible for
less than 5 seconds.  A notification shown with no show in the
previous 5 seconds does last exactly 5 seconds. -/
theorem c6_amended (t1 t2 T : Nat) (a b : ErrorState)
    (h12 : t1 < t2) (hov : t2 < t1 + 5000) :
    (t2 ≤ T → T < t1 + 5000 → errorAt [(t1, a), (t2, b)] T = some b) ∧
    (t1 + 5000 ≤ T → T < t2 + 5000 → errorAt [(t1, a), (t2, b)] T = none) ∧
    (∀ t (n : ErrorState) T2, t ≤ T2 → T2 < t + 5000 → errorAt [(t, n)] T2 = some n) ∧
    (∀ t (n : ErrorState) T2, t + 5000 ≤ T2 → errorAt [(t, n)] T2 = none) := by
  refine ⟨fun hT2 hT1 => ?_, fun hT1 hT2 => ?_,
          fun t n T2 hta htb => ?_, fun t n T2 ht => ?_⟩
  · have ha1 : t1 ≤ T := by omega
    have hno : ¬ (t1 + 5000 ≤ t2) := by omega
    have hnoT1 : ¬ (t1 + 5000 ≤ T) := by omega
    have hnoT2 : ¬ (t2 + 5000 ≤ T) := by omega
    simp [errorAt, runShows, showErrorAt, fireDue, ha1, hT2, hno, hnoT1, hnoT2]
  · have ha1 : t1 ≤ T := by omega
    have ht2T : t2 ≤ T := by omega
    have hno : ¬ (t1 + 5000 ≤ t2) := by omega
    simp [errorAt, runShows, showErrorAt, fireDue, ha1, ht2T, hno, hT1]
  · have hno : ¬ (t + 5000 ≤ T2) := by omega
    simp [errorAt, runShows, showErrorAt, fireDue, hta, hno]
  · have hta : t ≤ T2 := by omega
    simp [errorAt, runShows, showErrorAt, fireDue, hta, ht]

/-- C6, witness: with shows at 0 and 3000, the second notification is
live at 4000 but cleared by 6000; an isolated notification lasts from
10 through 5009 and is gone at 5010. -/
theorem c6_witness :
    errorAt [(0, nFirst), (3000, nSecond)] 4000 = some nSecond ∧
    errorAt [(0, nFirst), (3000, nSecond)] 6000 = none ∧
    errorAt [(10, nFirst)] 5009 = some nFirst ∧
    errorAt [(10, nFirst)] 5010 = none := by
  have h4 := c6_amended 0 3000 4000 nFirst nSecond (by omega) (by omega)
  have h6 := c6_amended 0 3000 6000 nFirst nSecond (by omega) (by omega)
  exact ⟨h4.1 (by omega) (by omega), h6.2.1 (by omega) (by omega),
         h4.2.2.1 10 nFirst 5009 (by omega) (by omega),
         h4.2.2.2 10 nFirst 5010 (by omega)⟩

/-- C7, amended: reset clears the model preview, the result, the job
id, the status and the loading flag (and in B/C the live
notification), and the polling-effect guard is off afterwards — but
the garment reference is retained, not cleared. -/
theorem c7_amended (sa : StateA) (sb : StateB) :
    (handleTryAgainA sa).modelPreview = none ∧
    (handleTryAgainA sa).generatedResult = JsVal.null ∧
    (handleTryAgainA sa).predictionId = JsVal.null ∧
    (handleTryAgainA sa).predictionStatus = JsVal.null ∧
    (handleTryAgainA sa).isLoading = false ∧
    (handleTryAgainA sa).garmentUrl = sa.garmentUrl ∧
    pollingTimerOn (handleTryAgainA sa).predictionId
      (handleTryAgainA sa).predictionStatus = false ∧
    (handleTryAgainBC sb).modelPreview = none ∧
    (handleTryAgainBC sb).generatedResult = JsVal.null ∧
    (handleTryAgainBC sb).predictionId = JsVal.null ∧
    (handleTryAgainBC sb).predictionStatus = JsVal.null ∧
    (handleTryAgainBC sb).error = none ∧
    (handleTryAgainBC sb).isLoading = false ∧
    (handleTryAgainBC sb).garmentUrl = sb.garmentUrl ∧
    pollingTimerOn (handleTryAgainBC sb).predictionId
      (handleTryAgainBC sb).predictionStatus = false :=
  ⟨rfl, rfl, rfl, rfl, rfl, rfl, rfl, rfl, rfl, rfl, rfl, rfl, rfl, rfl, rfl⟩


end VirtualTryOn
